import Mathlib

/-!
Shallow embedding of LightMCP (src/server.py), a pay-per-SMS service:
create a Lightning charge, present it as a QR/deep link, poll for payment,
and send the SMS exactly once after payment.

Modelling conventions:
* The process-global dict `pending_sms : dict[str, dict]` is modelled as an
  association list `Registry` with Python-dict lookup and assignment
  semantics (assignment overwrites an existing key in place, else appends).
* Outbound HTTP calls (OpenNode create/query, Twilio send) are external
  collaborators: each tool function takes the outcome of the call it would
  make as an explicit argument (`HttpResult`, `Except String String`), and
  the definitions replay the Python control flow on those outcomes.
* JSON response bodies are modelled by records of `Option` fields mirroring
  exactly the accesses the Python code performs: `none` for a field accessed
  with `d[k]` means the key is missing and the access raises `KeyError`;
  fields read with `d.get(k)` are `Option`-typed values where `none` covers
  both an absent key and JSON `null` (indistinguishable in the source).
  URL/status/timestamp fields are typed as strings per the provider API.
* Raised exceptions become `SmsError` values; each tool returns its result
  together with the registry after the call (so "the registry is unchanged"
  is a statement, not a convention) and, for `pay_and_send_sms`, the number
  of Twilio send invocations the call performed (0 or 1).
* The SMS price is an exact rational; the source only parses it from the
  environment and stores it, performing no arithmetic.
* QR pixel rendering and the HTML fallback snippet are presentation
  plumbing outside the modelled core (the spec lists them out of scope);
  `get_sms_qr` is modelled as returning the string handed to the QR
  renderer, and `get_sms_qr_with_link` by its `deep_link`,
  `hosted_checkout_url` and `instructions` fields.
-/

namespace LightMCP

/-- One entry of `pending_sms`: the dict literal built in
`create_sms_payment` (src/server.py lines 145-154), with the `sms_sid` key
(added only by `pay_and_send_sms`) as an `Option`. -/
structure SmsRequest where
  user_id : String
  phone_number : String
  message : String
  amount : Rat
  lightning_invoice : String
  hosted_checkout_url : Option String
  status : String
  sent : Bool
  sms_sid : Option String
deriving DecidableEq, Repr

/-- The pending-request registry `pending_sms`, a string-keyed dict. -/
abbrev Registry := List (String × SmsRequest)

/-- Python dict lookup `pending_sms[k]` / membership `k in pending_sms`. -/
def lookupReg : Registry → String → Option SmsRequest
  | [], _ => none
  | (k, v) :: rest, key => if key = k then some v else lookupReg rest key

/-- Python dict assignment `pending_sms[key] = v`: overwrite in place if the
key exists, else append. -/
def setReg : Registry → String → SmsRequest → Registry
  | [], key, v => [(key, v)]
  | (k, w) :: rest, key, v =>
      if k = key then (key, v) :: rest else (k, w) :: setReg rest key v

/-- Outcome of one outbound HTTP call, after `.raise_for_status()` and
`.json()`: a parsed body on 2xx, an `httpx.HTTPStatusError` with status code
and body text on non-2xx, or a transport fault. -/
inductive HttpResult (α : Type) where
  | success (body : α)
  | statusError (code : Nat) (text : String)
  | fault (msg : String)
deriving DecidableEq, Repr

/-- Errors raised by the tool functions (`ValueError`, `KeyError`,
re-raised provider/Twilio exceptions). -/
inductive SmsError where
  | notFound (charge_id : String)
  | opennodeApiError (code : Nat) (text : String)
  | configError (msg : String)
  | keyError (field : String)
  | transportFault (msg : String)
  | deliveryError (msg : String)
deriving DecidableEq, Repr

/-- The fields of the OpenNode charge-creation response body that
`create_sms_payment` accesses (`charge["data"][...]`). `none` means the key
is missing, so the access raises `KeyError`. For `hosted_checkout_url` the
inner `Option` is the stored value (a URL string or JSON null). -/
structure CreateChargeBody where
  id : Option String
  payreq : Option String
  hosted_checkout_url : Option (Option String)
  expires_at : Option String
deriving DecidableEq, Repr

/-- The success payload of `create_sms_payment` (the returned dict). -/
structure CreateResult where
  charge_id : String
  amount : Rat
  currency : String
  phone_number : String
  lightning_invoice : String
  hosted_checkout_url : Option String
  expires_at : String
  instructions : String
deriving DecidableEq, Repr

/-- `create_sms_payment(phone_number, message, user_id)` from src/server.py
lines 96-178. `apiKey` is `OPENNODE_API_KEY` (read by `get_opennode_headers`
before the request is issued; `none` raises `ValueError`); `price` is the
parsed `SMS_PRICE_USD`; `resp` is the outcome of the POST to
`/v1/charges`. The outbound payload (amount, description, order id) is not
modelled since the response is an input. Field-access order follows the
source: `id` and `payreq` are read first, `hosted_checkout_url` while
building the registry entry, and `expires_at` only afterwards, while
building the success payload — so a missing `expires_at` raises after the
registry assignment has already happened. -/
def create_sms_payment (phone_number message user_id : String) (price : Rat)
    (apiKey : Option String) (resp : HttpResult CreateChargeBody)
    (reg : Registry) : Except SmsError CreateResult × Registry :=
  match apiKey with
  | none => (.error (.configError "OPENNODE_API_KEY not set"), reg)
  | some _ =>
    match resp with
    | .statusError code text => (.error (.opennodeApiError code text), reg)
    | .fault msg => (.error (.transportFault msg), reg)
    | .success charge =>
      match charge.id with
      | none => (.error (.keyError "id"), reg)
      | some charge_id =>
        match charge.payreq with
        | none => (.error (.keyError "payreq"), reg)
        | some lightning_invoice =>
          match charge.hosted_checkout_url with
          | none => (.error (.keyError "hosted_checkout_url"), reg)
          | some hosted_checkout_url =>
            let entry : SmsRequest :=
              { user_id := user_id
                phone_number := phone_number
                message := message
                amount := price
                lightning_invoice := lightning_invoice
                hosted_checkout_url := hosted_checkout_url
                status := "pending"
                sent := false
                sms_sid := none }
            let reg2 := setReg reg charge_id entry
            match charge.expires_at with
            | none => (.error (.keyError "expires_at"), reg2)
            | some expires_at =>
              (.ok { charge_id := charge_id
                     amount := price
                     currency := "USD"
                     phone_number := phone_number
                     lightning_invoice := lightning_invoice
                     hosted_checkout_url := hosted_checkout_url
                     expires_at := expires_at
                     instructions := "Call get_sms_qr(charge_id) to get QR code, then pay_and_send_sms(charge_id)" },
               reg2)

/-- Twilio configuration as read from the environment in `pay_and_send_sms`
and `get_twilio_client`; `none` means unset (or empty, which Python treats
the same via truthiness). -/
structure TwilioConfig where
  account_sid : Option String
  auth_token : Option String
  phone_number : Option String
deriving DecidableEq, Repr

/-- The fields of the OpenNode charge-query response body accessed by
`pay_and_send_sms` and `check_charge_status`. `status` and `created_at` are
read with `charge["data"][...]` (so `none` raises `KeyError`); `paid_at` is
read with `.get("paid_at")`, where `none` covers an absent key and JSON
null alike. -/
structure ChargeQueryBody where
  status : Option String
  created_at : Option String
  paid_at : Option String
deriving DecidableEq, Repr

/-- The success payload of `pay_and_send_sms`. The three branches of the
source return dicts with different key sets; keys absent from a branch are
`none` here (`sms_sid`, the recipient, the sender, `paid_at` appear only in the branch
that has just sent the SMS). -/
structure PayResult where
  charge_id : String
  status : String
  paid : Bool
  sms_sent : Bool
  sms_sid : Option String
  to_number : Option String
  from_number : Option String
  paid_at : Option String
  message : String
deriving DecidableEq, Repr

/-- `pay_and_send_sms(charge_id)` from src/server.py lines 293-386.
`resp` is the outcome of the GET to `/v1/charge/{charge_id}`; `sendOutcome`
is what `twilio.messages.create` would do if invoked (`Except` of an error
message or the returned `sms.sid`). The third component of the result
counts the Twilio send invocations this call performed (0 or 1); a send
counts even when it raises. The source re-reads `pending_sms[charge_id]`
after the HTTP call; in this sequential model that is the entry matched at
the membership check. -/
def pay_and_send_sms (charge_id : String) (apiKey : Option String)
    (resp : HttpResult ChargeQueryBody) (cfg : TwilioConfig)
    (sendOutcome : Except String String) (reg : Registry) :
    Except SmsError PayResult × Registry × Nat :=
  match lookupReg reg charge_id with
  | none => (.error (.notFound charge_id), reg, 0)
  | some sms_request =>
    match apiKey with
    | none => (.error (.configError "OPENNODE_API_KEY not set"), reg, 0)
    | some _ =>
      match resp with
      | .statusError code text => (.error (.opennodeApiError code text), reg, 0)
      | .fault msg => (.error (.transportFault msg), reg, 0)
      | .success charge =>
        match charge.status with
        | none => (.error (.keyError "status"), reg, 0)
        | some status =>
          if status ≠ "paid" then
            (.ok { charge_id := charge_id
                   status := status
                   paid := false
                   sms_sent := false
                   sms_sid := none
                   to_number := none
                   from_number := none
                   paid_at := none
                   message := "Payment not received yet (status: " ++ status ++ ")" },
             reg, 0)
          else if !sms_request.sent then
            match cfg.account_sid, cfg.auth_token with
            | some _, some _ =>
              match cfg.phone_number with
              | none => (.error (.configError "TWILIO_PHONE_NUMBER not set"), reg, 0)
              | some from_number =>
                match sendOutcome with
                | .error msg => (.error (.deliveryError msg), reg, 1)
                | .ok sid =>
                  let reg2 := setReg reg charge_id
                    { sms_request with sent := true, status := "completed", sms_sid := some sid }
                  (.ok { charge_id := charge_id
                         status := "completed"
                         paid := true
                         sms_sent := true
                         sms_sid := some sid
                         to_number := some sms_request.phone_number
                         from_number := some from_number
                         paid_at := charge.paid_at
                         message := "Payment received and SMS sent successfully!" },
                   reg2, 1)
            | _, _ => (.error (.configError "TWILIO credentials not set"), reg, 0)
          else
            (.ok { charge_id := charge_id
                   status := "completed"
                   paid := true
                   sms_sent := true
                   sms_sid := none
                   to_number := none
                   from_number := none
                   paid_at := none
                   message := "SMS already sent for this payment" },
             reg, 0)

/-- The payload of `check_charge_status`. -/
structure StatusResult where
  charge_id : String
  payment_status : String
  sms_sent : Bool
  phone_number : String
  amount : Rat
  created_at : String
  paid_at : Option String
deriving DecidableEq, Repr

/-- `check_charge_status(charge_id)` from src/server.py lines 389-431: a
read of the registry entry combined with a fresh provider query. The source
wraps nothing in `ValueError` here (the generic handler re-raises), but the
model does not distinguish exception classes, only the failure itself. -/
def check_charge_status (charge_id : String) (apiKey : Option String)
    (resp : HttpResult ChargeQueryBody) (reg : Registry) :
    Except SmsError StatusResult × Registry :=
  match lookupReg reg charge_id with
  | none => (.error (.notFound charge_id), reg)
  | some sms_request =>
    match apiKey with
    | none => (.error (.configError "OPENNODE_API_KEY not set"), reg)
    | some _ =>
      match resp with
      | .statusError code text => (.error (.opennodeApiError code text), reg)
      | .fault msg => (.error (.transportFault msg), reg)
      | .success charge =>
        match charge.status with
        | none => (.error (.keyError "status"), reg)
        | some payment_status =>
          match charge.created_at with
          | none => (.error (.keyError "created_at"), reg)
          | some created_at =>
            (.ok { charge_id := charge_id
                   payment_status := payment_status
                   sms_sent := sms_request.sent
                   phone_number := sms_request.phone_number
                   amount := sms_request.amount
                   created_at := created_at
                   paid_at := charge.paid_at },
             reg)

/-- `get_sms_qr(charge_id)` from src/server.py lines 181-202, modelled as
returning the string handed to the (out-of-scope) QR renderer: the stored
Lightning invoice. -/
def get_sms_qr (charge_id : String) (reg : Registry) :
    Except SmsError String :=
  match lookupReg reg charge_id with
  | none => .error (.notFound charge_id)
  | some sms_request => .ok sms_request.lightning_invoice

/-- UTF-8 encoding of one character as a list of byte values, as performed
by Python before percent-encoding a str. -/
def utf8Bytes (c : Char) : List Nat :=
  let n := c.toNat
  if n < 0x80 then [n]
  else if n < 0x800 then
    [0xC0 + n / 0x40, 0x80 + n % 0x40]
  else if n < 0x10000 then
    [0xE0 + n / 0x1000, 0x80 + (n / 0x40) % 0x40, 0x80 + n % 0x40]
  else
    [0xF0 + n / 0x40000, 0x80 + (n / 0x1000) % 0x40, 0x80 + (n / 0x40) % 0x40,
     0x80 + n % 0x40]

/-- The characters `urllib.parse.quote` never encodes (ASCII letters,
digits, and the marks `_ . - ~`), as byte values. The `safe` parameter adds
to this set; with `safe=""` nothing else is exempt. -/
def isAlwaysSafeByte (b : Nat) : Bool :=
  (0x41 ≤ b && b ≤ 0x5A) || (0x61 ≤ b && b ≤ 0x7A) || (0x30 ≤ b && b ≤ 0x39) ||
  b == 0x2D || b == 0x2E || b == 0x5F || b == 0x7E

/-- Uppercase hexadecimal digit for a value below 16. -/
def hexDigitUpper (n : Nat) : Char :=
  if n < 10 then Char.ofNat (0x30 + n) else Char.ofNat (0x37 + n)

/-- Percent-encoding of one byte under `quote(..., safe="")`. -/
def quoteByte (b : Nat) : String :=
  if isAlwaysSafeByte b then String.singleton (Char.ofNat b)
  else
    "%" ++ String.singleton (hexDigitUpper (b / 16)) ++
      String.singleton (hexDigitUpper (b % 16))

/-- Model of the Python standard-library call `urllib.parse.quote(s,
safe="")` (an external collaborator, not repository code): percent-encode
every UTF-8 byte of `s` except the always-safe characters, with uppercase
hex digits. -/
def pyQuote (s : String) : String :=
  String.join (((s.data.map utf8Bytes).flatten).map quoteByte)

/-- `generate_lightning_deep_link(invoice)` from src/server.py lines
205-211: the `lightning:` URI scheme around the percent-encoded invoice. -/
def generate_lightning_deep_link (invoice : String) : String :=
  "lightning:" ++ pyQuote invoice

/-- The string fields of the `get_sms_qr_with_link` payload. The QR image
and the `mobile_html` snippet are presentation plumbing outside the
modelled core (the spec scopes out QR rasterization and HTML generation). -/
structure LinkResult where
  deep_link : String
  hosted_checkout_url : Option String
  instructions : String
deriving DecidableEq, Repr

/-- `get_sms_qr_with_link(charge_id)` from src/server.py lines 214-289,
restricted to its modelled fields: `deep_link` from the stored invoice and
`hosted_checkout_url` read back with `.get(...)` from the stored entry
(always present; the model field is the stored value directly). -/
def get_sms_qr_with_link (charge_id : String) (reg : Registry) :
    Except SmsError LinkResult :=
  match lookupReg reg charge_id with
  | none => .error (.notFound charge_id)
  | some data =>
    .ok { deep_link := generate_lightning_deep_link data.lightning_invoice
          hosted_checkout_url := data.hosted_checkout_url
          instructions := "Scan QR separately, or tap deep_link to open a wallet." }

/-- Registry states reachable from the empty `pending_sms` dict by any
sequence of tool calls with any inputs and provider/Twilio outcomes.
`get_sms_qr`, `get_sms_qr_with_link` and `check_charge_status` perform no
assignment to the dict, so only the two mutating tools appear. -/
inductive Reachable : Registry → Prop where
  | empty : Reachable []
  | create (reg : Registry) (phone_number message user_id : String)
      (price : Rat) (apiKey : Option String)
      (resp : HttpResult CreateChargeBody) :
      Reachable reg →
      Reachable (create_sms_payment phone_number message user_id price apiKey resp reg).2
  | fulfill (reg : Registry) (charge_id : String) (apiKey : Option String)
      (resp : HttpResult ChargeQueryBody) (cfg : TwilioConfig)
      (sendOutcome : Except String String) :
      Reachable reg →
      Reachable (pay_and_send_sms charge_id apiKey resp cfg sendOutcome reg).2.1

/-! ## Registry lemmas -/

theorem lookup_setReg (reg : Registry) (key k : String) (v : SmsRequest) :
    lookupReg (setReg reg key v) k = if k = key then some v else lookupReg reg k := by
  induction reg with
  | nil => simp [setReg, lookupReg]
  | cons hd tl ih =>
    obtain ⟨k0, w⟩ := hd
    by_cases h0 : k0 = key
    · subst h0
      simp only [setReg, if_pos rfl, lookupReg]
      by_cases hk : k = k0 <;> simp [hk]
    · simp only [setReg, if_neg h0, lookupReg, ih]
      by_cases hk : k = k0 <;> by_cases hk2 : k = key <;> simp_all

/-! ## Concrete scenario used by witnesses and counterexamples -/

/-- A well-formed provider charge-creation response. -/
def sampleBody : CreateChargeBody :=
  { id := some "ch_1"
    payreq := some "lntb1xyz"
    hosted_checkout_url := some (some "https://checkout.opennode.com/ch_1")
    expires_at := some "2026-01-01T00:00:00Z" }

/-- Registry after one successful charge creation on the empty registry. -/
def regAfterCreate : Registry :=
  (create_sms_payment "+15551234567" "Hello" "anonymous" (1/10) (some "key")
    (.success sampleBody) []).2

/-- A complete Twilio configuration. -/
def cfgSample : TwilioConfig :=
  { account_sid := some "AC1", auth_token := some "tok",
    phone_number := some "+15550000000" }

/-- A provider query response reporting the charge as paid. -/
def paidBody : ChargeQueryBody :=
  { status := some "paid", created_at := some "t0", paid_at := some "t1" }

/-- A provider query response reporting the charge as not yet paid. -/
def unpaidBody : ChargeQueryBody :=
  { status := some "processing", created_at := some "t0", paid_at := none }

/-- First fulfillment call on the paid charge: the Twilio send succeeds
with receipt id SM123. -/
def firstCall : Except SmsError PayResult × Registry × Nat :=
  pay_and_send_sms "ch_1" (some "key") (.success paidBody) cfgSample
    (.ok "SM123") regAfterCreate

/-- Second fulfillment call on the same charge after the first delivered. -/
def secondCall : Except SmsError PayResult × Registry × Nat :=
  pay_and_send_sms "ch_1" (some "key") (.success paidBody) cfgSample
    (.ok "SM999") firstCall.2.1

/-- The registry after create + successful fulfillment. -/
def regDelivered : Registry := firstCall.2.1

/-- The entry of `regDelivered` at key ch_1. -/
def deliveredEntry : SmsRequest :=
  { user_id := "anonymous"
    phone_number := "+15551234567"
    message := "Hello"
    amount := 1/10
    lightning_invoice := "lntb1xyz"
    hosted_checkout_url := some "https://checkout.opennode.com/ch_1"
    status := "completed"
    sent := true
    sms_sid := some "SM123" }

/-! ## C5: unknown charge id -/

/-- C5: for every charge id not present in the registry, each of the four
lookup-based operations fails with the not-found error, the registry is
unchanged and no Twilio send is performed. -/
theorem unknown_charge_not_found (reg : Registry) (cid : String)
    (h : lookupReg reg cid = none) :
    get_sms_qr cid reg = .error (.notFound cid) ∧
    get_sms_qr_with_link cid reg = .error (.notFound cid) ∧
    (∀ (apiKey : Option String) (resp : HttpResult ChargeQueryBody)
       (cfg : TwilioConfig) (send : Except String String),
      pay_and_send_sms cid apiKey resp cfg send reg = (.error (.notFound cid), reg, 0)) ∧
    (∀ (apiKey : Option String) (resp : HttpResult ChargeQueryBody),
      check_charge_status cid apiKey resp reg = (.error (.notFound cid), reg)) := by
  refine ⟨?_, ?_, ?_, ?_⟩
  · simp [get_sms_qr, h]
  · simp [get_sms_qr_with_link, h]
  · intro apiKey resp cfg send
    simp [pay_and_send_sms, h]
  · intro apiKey resp
    simp [check_charge_status, h]

/-- C5 witness: the empty registry does not contain ch_0, and every
lookup-based operation on it fails with the not-found error. -/
theorem unknown_charge_not_found_witness :
    lookupReg [] "ch_0" = none ∧
    get_sms_qr "ch_0" [] = .error (.notFound "ch_0") ∧
    pay_and_send_sms "ch_0" (some "key") (.success paidBody) cfgSample
      (.ok "SM1") [] = (.error (.notFound "ch_0"), [], 0) ∧
    check_charge_status "ch_0" (some "key") (.success paidBody) [] =
      (.error (.notFound "ch_0"), []) := by
  have h := unknown_charge_not_found [] "ch_0" rfl
  exact ⟨rfl, h.1, h.2.2.1 _ _ _ _, h.2.2.2 _ _⟩

/-! ## C7: not paid means no side effects -/

/-- C7: for a registered charge whose provider query reports a status other
than the literal paid, `pay_and_send_sms` returns the non-terminal report
(paid false, sms_sent false), leaves the whole registry unchanged and does
not invoke the Twilio send. -/
theorem unpaid_no_side_effects (reg : Registry) (cid st key : String)
    (r : SmsRequest) (q : ChargeQueryBody) (cfg : TwilioConfig)
    (send : Except String String)
    (hlk : lookupReg reg cid = some r) (hq : q.status = some st)
    (hne : st ≠ "paid") :
    pay_and_send_sms cid (some key) (.success q) cfg send reg =
      (.ok { charge_id := cid
             status := st
             paid := false
             sms_sent := false
             sms_sid := none
             to_number := none
             from_number := none
             paid_at := none
             message := "Payment not received yet (status: " ++ st ++ ")" },
       reg, 0) := by
  simp [pay_and_send_sms, hlk, hq, hne]

/-- C7 witness: a concrete unpaid query on the registry holding ch_1. -/
theorem unpaid_no_side_effects_witness :
    lookupReg regAfterCreate "ch_1" ≠ none ∧
    unpaidBody.status = some "processing" ∧
    pay_and_send_sms "ch_1" (some "key") (.success unpaidBody) cfgSample
      (.ok "SM1") regAfterCreate =
      (.ok { charge_id := "ch_1"
             status := "processing"
             paid := false
             sms_sent := false
             sms_sid := none
             to_number := none
             from_number := none
             paid_at := none
             message := "Payment not received yet (status: processing)" },
       regAfterCreate, 0) := by
  refine ⟨by decide, rfl, ?_⟩
  have h := unpaid_no_side_effects regAfterCreate "ch_1" "processing" "key"
    _ unpaidBody cfgSample (.ok "SM1") rfl rfl (by decide)
  simpa using h

/-- The registry entry created by the successful charge creation of
`regAfterCreate`. -/
def createdEntry : SmsRequest :=
  { user_id := "anonymous"
    phone_number := "+15551234567"
    message := "Hello"
    amount := 1/10
    lightning_invoice := "lntb1xyz"
    hosted_checkout_url := some "https://checkout.opennode.com/ch_1"
    status := "pending"
    sent := false
    sms_sid := none }

/-! ## C1: fulfillment idempotence -/

/-- C1 counterexample: after a successful delivery whose receipt id is
SM123, the second `pay_and_send_sms` call reports sms_sent = true but its
response carries no receipt id at all, so the two calls do not return the
same `sms_sid`. -/
theorem pay_twice_receipt_counterexample :
    firstCall.1.map PayResult.sms_sid = .ok (some "SM123") ∧
    secondCall.1.map PayResult.sms_sent = .ok true ∧
    secondCall.1.map PayResult.sms_sid = .ok none ∧
    secondCall.1.map PayResult.sms_sid ≠ firstCall.1.map PayResult.sms_sid := by
  refine ⟨rfl, rfl, rfl, ?_⟩
  have h1 : secondCall.1.map PayResult.sms_sid = .ok none := rfl
  have h2 : firstCall.1.map PayResult.sms_sid = .ok (some "SM123") := rfl
  rw [h1, h2]
  simp

/-- C1 (amended): after a first fulfillment call delivers the SMS (receipt
id `sid`), a second call with the charge still reported paid returns
sms_sent = true with status completed, performs no further Twilio send, and
leaves the registry unchanged; its response however omits the receipt id
(`sms_sid` is absent) rather than repeating `sid`. -/
theorem pay_idempotent_no_resend (reg : Registry)
    (cid key asid atok fromn sid : String) (r : SmsRequest)
    (q1 q2 : ChargeQueryBody) (send2 : Except String String)
    (hlk : lookupReg reg cid = some r) (hsent : r.sent = false)
    (h1 : q1.status = some "paid") (h2 : q2.status = some "paid") :
    pay_and_send_sms cid (some key) (.success q1)
        ⟨some asid, some atok, some fromn⟩ (.ok sid) reg =
      (.ok { charge_id := cid
             status := "completed"
             paid := true
             sms_sent := true
             sms_sid := some sid
             to_number := some r.phone_number
             from_number := some fromn
             paid_at := q1.paid_at
             message := "Payment received and SMS sent successfully!" },
       setReg reg cid { r with sent := true, status := "completed", sms_sid := some sid },
       1) ∧
    pay_and_send_sms cid (some key) (.success q2)
        ⟨some asid, some atok, some fromn⟩ send2
        (setReg reg cid { r with sent := true, status := "completed", sms_sid := some sid }) =
      (.ok { charge_id := cid
             status := "completed"
             paid := true
             sms_sent := true
             sms_sid := none
             to_number := none
             from_number := none
             paid_at := none
             message := "SMS already sent for this payment" },
       setReg reg cid { r with sent := true, status := "completed", sms_sid := some sid },
       0) := by
  constructor
  · simp [pay_and_send_sms, hlk, h1, hsent]
  · have hlk2 : lookupReg
        (setReg reg cid { r with sent := true, status := "completed", sms_sid := some sid }) cid =
        some { r with sent := true, status := "completed", sms_sid := some sid } := by
      rw [lookup_setReg, if_pos rfl]
    simp [pay_and_send_sms, hlk2, h2]

/-- C1 witness: the amended idempotence statement at the concrete
create-then-deliver scenario. -/
theorem pay_idempotent_no_resend_witness :
    pay_and_send_sms "ch_1" (some "key") (.success paidBody)
        ⟨some "AC1", some "tok", some "+15550000000"⟩ (.ok "SM123") regAfterCreate =
      (.ok { charge_id := "ch_1"
             status := "completed"
             paid := true
             sms_sent := true
             sms_sid := some "SM123"
             to_number := some createdEntry.phone_number
             from_number := some "+15550000000"
             paid_at := paidBody.paid_at
             message := "Payment received and SMS sent successfully!" },
       setReg regAfterCreate "ch_1"
         { createdEntry with sent := true, status := "completed", sms_sid := some "SM123" },
       1) ∧
    pay_and_send_sms "ch_1" (some "key") (.success paidBody)
        ⟨some "AC1", some "tok", some "+15550000000"⟩ (.ok "SM999")
        (setReg regAfterCreate "ch_1"
          { createdEntry with sent := true, status := "completed", sms_sid := some "SM123" }) =
      (.ok { charge_id := "ch_1"
             status := "completed"
             paid := true
             sms_sent := true
             sms_sid := none
             to_number := none
             from_number := none
             paid_at := none
             message := "SMS already sent for this payment" },
       setReg regAfterCreate "ch_1"
         { createdEntry with sent := true, status := "completed", sms_sid := some "SM123" },
       0) :=
  pay_idempotent_no_resend regAfterCreate "ch_1" "key" "AC1" "tok" "+15550000000"
    "SM123" createdEntry paidBody paidBody (.ok "SM999") rfl rfl rfl rfl

/-! ## C3: failed delivery leaves the entry retryable -/

/-- C3: for a registered, paid, not-yet-sent charge, a Twilio send failure
raises the delivery error and leaves the whole registry (hence the entry:
sent still false, status still pending, no receipt id) unchanged, and any
subsequent fulfillment call on that registry attempts the Twilio send
again. -/
theorem delivery_failure_preserves_registry (reg : Registry)
    (cid key asid atok fromn emsg : String) (r : SmsRequest)
    (q : ChargeQueryBody)
    (hlk : lookupReg reg cid = some r) (hsent : r.sent = false)
    (hq : q.status = some "paid") :
    pay_and_send_sms cid (some key) (.success q)
        ⟨some asid, some atok, some fromn⟩ (.error emsg) reg =
      (.error (.deliveryError emsg), reg, 1) ∧
    (∀ send2 : Except String String,
      (pay_and_send_sms cid (some key) (.success q)
          ⟨some asid, some atok, some fromn⟩ send2 reg).2.2 = 1) := by
  constructor
  · simp [pay_and_send_sms, hlk, hq, hsent]
  · intro send2
    cases send2 <;> simp [pay_and_send_sms, hlk, hq, hsent]

/-- C3 witness: a concrete Twilio rejection on the paid ch_1 charge. -/
theorem delivery_failure_preserves_registry_witness :
    pay_and_send_sms "ch_1" (some "key") (.success paidBody)
        ⟨some "AC1", some "tok", some "+15550000000"⟩
        (.error "Twilio rejected") regAfterCreate =
      (.error (.deliveryError "Twilio rejected"), regAfterCreate, 1) ∧
    (pay_and_send_sms "ch_1" (some "key") (.success paidBody)
        ⟨some "AC1", some "tok", some "+15550000000"⟩
        (.ok "SM777") regAfterCreate).2.2 = 1 := by
  have h := delivery_failure_preserves_registry regAfterCreate "ch_1" "key" "AC1"
    "tok" "+15550000000" "Twilio rejected" createdEntry paidBody rfl rfl rfl
  exact ⟨h.1, h.2 (.ok "SM777")⟩

/-! ## C2: duplicate charge id on insert -/

/-- An entry already registered under ch_1 before a second insert with the
same provider-assigned id. -/
def preEntry : SmsRequest :=
  { user_id := "alice"
    phone_number := "+15551110000"
    message := "Old"
    amount := 1/10
    lightning_invoice := "lnbc_old"
    hosted_checkout_url := none
    status := "pending"
    sent := false
    sms_sid := none }

/-- A registry already holding ch_1. -/
def regPre : Registry := [("ch_1", preEntry)]

/-- Charge creation whose provider response carries the already-registered
id ch_1. -/
def overwriteCall : Except SmsError CreateResult × Registry :=
  create_sms_payment "+15552220000" "New" "bob" (1/10) (some "key")
    (.success sampleBody) regPre

/-- The entry that replaces `preEntry` after `overwriteCall`. -/
def overwriteEntry : SmsRequest :=
  { user_id := "bob"
    phone_number := "+15552220000"
    message := "New"
    amount := 1/10
    lightning_invoice := "lntb1xyz"
    hosted_checkout_url := some "https://checkout.opennode.com/ch_1"
    status := "pending"
    sent := false
    sms_sid := none }

/-- C2 counterexample: with ch_1 already registered, a creation whose
provider response reuses the id ch_1 succeeds (no DuplicateKey failure)
and silently replaces the previous entry. -/
theorem duplicate_insert_counterexample :
    lookupReg regPre "ch_1" = some preEntry ∧
    overwriteCall.1 =
      .ok { charge_id := "ch_1"
            amount := 1/10
            currency := "USD"
            phone_number := "+15552220000"
            lightning_invoice := "lntb1xyz"
            hosted_checkout_url := some "https://checkout.opennode.com/ch_1"
            expires_at := "2026-01-01T00:00:00Z"
            instructions := "Call get_sms_qr(charge_id) to get QR code, then pay_and_send_sms(charge_id)" } ∧
    lookupReg overwriteCall.2 "ch_1" = some overwriteEntry ∧
    lookupReg overwriteCall.2 "ch_1" ≠ some preEntry := by
  refine ⟨rfl, rfl, rfl, ?_⟩
  have h : lookupReg overwriteCall.2 "ch_1" = some overwriteEntry := rfl
  rw [h]
  simp [overwriteEntry, preEntry]

/-- C2 (amended): inserting a new PaymentRequest under an already-present
charge id succeeds and silently overwrites the existing entry; the source
performs a plain dict assignment and has no DuplicateKey check. -/
theorem duplicate_insert_overwrites (reg : Registry)
    (phone msg uid key cid inv e : String) (price : Rat) (hcu : Option String)
    (old : SmsRequest) (b : CreateChargeBody)
    (_hlk : lookupReg reg cid = some old)
    (hid : b.id = some cid) (hpr : b.payreq = some inv)
    (hhcu : b.hosted_checkout_url = some hcu) (hexp : b.expires_at = some e) :
    create_sms_payment phone msg uid price (some key) (.success b) reg =
      (.ok { charge_id := cid
             amount := price
             currency := "USD"
             phone_number := phone
             lightning_invoice := inv
             hosted_checkout_url := hcu
             expires_at := e
             instructions := "Call get_sms_qr(charge_id) to get QR code, then pay_and_send_sms(charge_id)" },
       setReg reg cid { user_id := uid
                        phone_number := phone
                        message := msg
                        amount := price
                        lightning_invoice := inv
                        hosted_checkout_url := hcu
                        status := "pending"
                        sent := false
                        sms_sid := none }) ∧
    lookupReg (create_sms_payment phone msg uid price (some key) (.success b) reg).2 cid =
      some { user_id := uid
             phone_number := phone
             message := msg
             amount := price
             lightning_invoice := inv
             hosted_checkout_url := hcu
             status := "pending"
             sent := false
             sms_sid := none } := by
  have hmain : create_sms_payment phone msg uid price (some key) (.success b) reg =
      (.ok { charge_id := cid
             amount := price
             currency := "USD"
             phone_number := phone
             lightning_invoice := inv
             hosted_checkout_url := hcu
             expires_at := e
             instructions := "Call get_sms_qr(charge_id) to get QR code, then pay_and_send_sms(charge_id)" },
       setReg reg cid { user_id := uid
                        phone_number := phone
                        message := msg
                        amount := price
                        lightning_invoice := inv
                        hosted_checkout_url := hcu
                        status := "pending"
                        sent := false
                        sms_sid := none }) := by
    simp [create_sms_payment, hid, hpr, hhcu, hexp]
  refine ⟨hmain, ?_⟩
  rw [hmain, lookup_setReg, if_pos rfl]

/-- C2 witness: the amended overwrite statement at the concrete
pre-populated registry. -/
theorem duplicate_insert_overwrites_witness :
    create_sms_payment "+15552220000" "New" "bob" (1/10) (some "key")
        (.success sampleBody) regPre =
      (.ok { charge_id := "ch_1"
             amount := 1/10
             currency := "USD"
             phone_number := "+15552220000"
             lightning_invoice := "lntb1xyz"
             hosted_checkout_url := some "https://checkout.opennode.com/ch_1"
             expires_at := "2026-01-01T00:00:00Z"
             instructions := "Call get_sms_qr(charge_id) to get QR code, then pay_and_send_sms(charge_id)" },
       setReg regPre "ch_1" overwriteEntry) ∧
    lookupReg (create_sms_payment "+15552220000" "New" "bob" (1/10) (some "key")
        (.success sampleBody) regPre).2 "ch_1" = some overwriteEntry :=
  duplicate_insert_overwrites regPre "+15552220000" "New" "bob" "key" "ch_1"
    "lntb1xyz" "2026-01-01T00:00:00Z" (1/10)
    (some "https://checkout.opennode.com/ch_1") preEntry sampleBody
    rfl rfl rfl rfl rfl

/-! ## C4: no partial registry writes on creation failure -/

/-- A provider response parseable up to the fields read before the registry
insert, but missing `expires_at`, which the source reads only after the
insert. -/
def badBody : CreateChargeBody :=
  { id := some "ch_9"
    payreq := some "ln9"
    hosted_checkout_url := some none
    expires_at := none }

/-- Charge creation on the empty registry against `badBody`. -/
def badCreate : Except SmsError CreateResult × Registry :=
  create_sms_payment "+15551234567" "Hi" "anonymous" (1/10) (some "key")
    (.success badBody) []

/-- The entry that `badCreate` leaves behind despite failing. -/
def badEntry : SmsRequest :=
  { user_id := "anonymous"
    phone_number := "+15551234567"
    message := "Hi"
    amount := 1/10
    lightning_invoice := "ln9"
    hosted_checkout_url := none
    status := "pending"
    sent := false
    sms_sid := none }

/-- C4 counterexample: a provider response missing `expires_at` makes
`create_sms_payment` fail with a KeyError, yet the registry has already
been modified: the new entry sits under ch_9. -/
theorem create_partial_write_counterexample :
    badCreate.1 = .error (.keyError "expires_at") ∧
    badCreate.2 = [("ch_9", badEntry)] ∧
    [("ch_9", badEntry)] ≠ ([] : Registry) := by
  exact ⟨rfl, rfl, by simp⟩

/-- C4 (amended): the registry is left unchanged for every creation failure
occurring before the insert — missing API key, non-success HTTP response,
transport fault, or a parse failure of the id, invoice, or hosted-checkout
fields; a parse failure of `expires_at`, which the source reads after the
insert while building the success payload, fails the call but leaves the
freshly inserted entry in the registry. -/
theorem create_no_partial_write (phone msg uid : String) (price : Rat)
    (apiKey : Option String) (resp : HttpResult CreateChargeBody)
    (reg : Registry) :
    ((apiKey = none ∨ (∃ c t, resp = .statusError c t) ∨ (∃ m, resp = .fault m) ∨
        (∃ b, resp = .success b ∧
          (b.id = none ∨ b.payreq = none ∨ b.hosted_checkout_url = none))) →
      (∃ e, (create_sms_payment phone msg uid price apiKey resp reg).1 = .error e) ∧
      (create_sms_payment phone msg uid price apiKey resp reg).2 = reg) ∧
    (∀ (k : String) (b : CreateChargeBody) (cid inv : String)
       (hcu : Option String),
      apiKey = some k → resp = .success b → b.id = some cid →
      b.payreq = some inv → b.hosted_checkout_url = some hcu →
      b.expires_at = none →
      (create_sms_payment phone msg uid price apiKey resp reg).1 =
        .error (.keyError "expires_at") ∧
      (create_sms_payment phone msg uid price apiKey resp reg).2 =
        setReg reg cid { user_id := uid
                         phone_number := phone
                         message := msg
                         amount := price
                         lightning_invoice := inv
                         hosted_checkout_url := hcu
                         status := "pending"
                         sent := false
                         sms_sid := none }) := by
  constructor
  · intro h
    rcases h with hk | ⟨c, t, hr⟩ | ⟨m, hr⟩ | ⟨b, hr, hb⟩
    · subst hk
      exact ⟨⟨_, rfl⟩, rfl⟩
    · subst hr
      cases apiKey <;> exact ⟨⟨_, rfl⟩, rfl⟩
    · subst hr
      cases apiKey <;> exact ⟨⟨_, rfl⟩, rfl⟩
    · subst hr
      cases apiKey with
      | none => exact ⟨⟨_, rfl⟩, rfl⟩
      | some k =>
        obtain ⟨bid, bpr, bh, be⟩ := b
        rcases hb with hid | hpr | hh
        · subst hid
          exact ⟨⟨_, rfl⟩, rfl⟩
        · subst hpr
          cases bid <;> exact ⟨⟨_, rfl⟩, rfl⟩
        · subst hh
          cases bid <;> cases bpr <;> exact ⟨⟨_, rfl⟩, rfl⟩
  · intro k b cid inv hcu hk hr hid hpr hh he
    subst hk
    subst hr
    obtain ⟨bid, bpr, bh, be⟩ := b
    simp_all [create_sms_payment]

/-- C4 witness: both halves of the amended statement at concrete inputs —
a missing API key leaves the empty registry empty, and the missing
`expires_at` of `badBody` leaves the freshly inserted ch_9 entry behind. -/
theorem create_no_partial_write_witness :
    (create_sms_payment "+15551234567" "Hi" "anonymous" (1/10) none
        (.success sampleBody) []).2 = ([] : Registry) ∧
    (create_sms_payment "+15551234567" "Hi" "anonymous" (1/10) (some "key")
        (.success badBody) []).2 = setReg [] "ch_9" badEntry := by
  refine ⟨((create_no_partial_write "+15551234567" "Hi" "anonymous" (1/10) none
    (.success sampleBody) []).1 (Or.inl rfl)).2, ?_⟩
  exact ((create_no_partial_write "+15551234567" "Hi" "anonymous" (1/10)
    (some "key") (.success badBody) []).2 "key" badBody "ch_9" "ln9" none
    rfl rfl rfl rfl rfl rfl).2

/-! ## Registry shape invariant (C6, C9) -/

/-- Every reachable entry is in one of two shapes: freshly created
(pending, not sent, no receipt id) or fulfilled (completed, sent, receipt
id recorded). -/
def entryShape (r : SmsRequest) : Prop :=
  (r.status = "pending" ∧ r.sent = false ∧ r.sms_sid = none) ∨
  (r.status = "completed" ∧ r.sent = true ∧ r.sms_sid.isSome = true)

theorem lookup_setReg_cases (reg : Registry) (key cid : String)
    (v r : SmsRequest) (h : lookupReg (setReg reg key v) cid = some r) :
    lookupReg reg cid = some r ∨ r = v := by
  rw [lookup_setReg] at h
  by_cases hc : cid = key
  · rw [if_pos hc] at h
    injection h with h3
    exact Or.inr h3.symm
  · rw [if_neg hc] at h
    exact Or.inl h

theorem create_lookup_cases (phone msg uid : String) (price : Rat)
    (apiKey : Option String) (resp : HttpResult CreateChargeBody)
    (reg : Registry) (cid : String) (r : SmsRequest)
    (h : lookupReg (create_sms_payment phone msg uid price apiKey resp reg).2 cid
      = some r) :
    lookupReg reg cid = some r ∨
      (r.status = "pending" ∧ r.sent = false ∧ r.sms_sid = none) := by
  simp only [create_sms_payment] at h
  repeat' split at h
  all_goals first
    | exact Or.inl h
    | (rcases lookup_setReg_cases _ _ _ _ _ h with h2 | h2
       · exact Or.inl h2
       · subst h2
         exact Or.inr ⟨rfl, rfl, rfl⟩)

theorem fulfill_lookup_cases (cid0 : String) (apiKey : Option String)
    (resp : HttpResult ChargeQueryBody) (cfg : TwilioConfig)
    (send : Except String String) (reg : Registry) (cid : String)
    (r : SmsRequest)
    (h : lookupReg (pay_and_send_sms cid0 apiKey resp cfg send reg).2.1 cid
      = some r) :
    lookupReg reg cid = some r ∨
      (r.status = "completed" ∧ r.sent = true ∧ r.sms_sid.isSome = true) := by
  simp only [pay_and_send_sms] at h
  repeat' split at h
  all_goals first
    | exact Or.inl h
    | (rcases lookup_setReg_cases _ _ _ _ _ h with h2 | h2
       · exact Or.inl h2
       · subst h2
         exact Or.inr ⟨rfl, rfl, rfl⟩)

/-- Shared invariant: in every reachable registry state, every entry is
either create-shaped or fulfilled-shaped. -/
theorem reachable_entryShape (reg : Registry) (h : Reachable reg) :
    ∀ cid r, lookupReg reg cid = some r → entryShape r := by
  induction h with
  | empty =>
    intro cid r hl
    simp [lookupReg] at hl
  | create reg0 phone msg uid price apiKey resp _ ih =>
    intro cid r hl
    rcases create_lookup_cases phone msg uid price apiKey resp reg0 cid r hl with h2 | h2
    · exact ih cid r h2
    · exact Or.inl h2
  | fulfill reg0 cid0 apiKey resp cfg send _ ih =>
    intro cid r hl
    rcases fulfill_lookup_cases cid0 apiKey resp cfg send reg0 cid r hl with h2 | h2
    · exact ih cid r h2
    · exact Or.inr h2

/-- C6: in every reachable registry state, an entry with sent = true has
its delivery receipt id recorded and status completed. -/
theorem delivered_implies_receipt_and_completed (reg : Registry)
    (cid : String) (r : SmsRequest) (hre : Reachable reg)
    (hlk : lookupReg reg cid = some r) (hs : r.sent = true) :
    r.sms_sid.isSome = true ∧ r.status = "completed" := by
  rcases reachable_entryShape reg hre cid r hlk with ⟨h1, h2, h3⟩ | ⟨h1, h2, h3⟩
  · rw [hs] at h2
    exact absurd h2 (by decide)
  · exact ⟨h3, h1⟩

/-- C6 witness: the concrete create-then-deliver registry is reachable and
its delivered ch_1 entry carries receipt SM123 with status completed. -/
theorem delivered_implies_receipt_and_completed_witness :
    Reachable regDelivered ∧
    lookupReg regDelivered "ch_1" = some deliveredEntry ∧
    deliveredEntry.sent = true ∧
    deliveredEntry.sms_sid.isSome = true ∧
    deliveredEntry.status = "completed" := by
  have hre : Reachable regDelivered :=
    Reachable.fulfill regAfterCreate "ch_1" (some "key") (.success paidBody)
      cfgSample (.ok "SM123")
      (Reachable.create [] "+15551234567" "Hello" "anonymous" (1/10)
        (some "key") (.success sampleBody) Reachable.empty)
  have hlk : lookupReg regDelivered "ch_1" = some deliveredEntry := rfl
  have h := delivered_implies_receipt_and_completed regDelivered "ch_1"
    deliveredEntry hre hlk rfl
  exact ⟨hre, hlk, rfl, h.1, h.2⟩

/-- C9: in every reachable registry state, each entry satisfies the
two-way correspondence sent = true iff status = completed, and the receipt
id is present iff sent = true. -/
theorem sent_status_receipt_correspondence (reg : Registry) (cid : String)
    (r : SmsRequest) (hre : Reachable reg)
    (hlk : lookupReg reg cid = some r) :
    (r.sent = true ↔ r.status = "completed") ∧
    (r.sms_sid.isSome = true ↔ r.sent = true) := by
  rcases reachable_entryShape reg hre cid r hlk with ⟨h1, h2, h3⟩ | ⟨h1, h2, h3⟩
  · rw [h1, h2, h3]
    decide
  · rw [h1, h2, h3]
    decide

/-- C9 witness: the correspondence at the concrete freshly created
registry and its pending ch_1 entry. -/
theorem sent_status_receipt_correspondence_witness :
    Reachable regAfterCreate ∧
    lookupReg regAfterCreate "ch_1" = some createdEntry ∧
    ((createdEntry.sent = true ↔ createdEntry.status = "completed") ∧
     (createdEntry.sms_sid.isSome = true ↔ createdEntry.sent = true)) := by
  have hre : Reachable regAfterCreate :=
    Reachable.create [] "+15551234567" "Hello" "anonymous" (1/10) (some "key")
      (.success sampleBody) Reachable.empty
  exact ⟨hre, rfl,
    sent_status_receipt_correspondence regAfterCreate "ch_1" createdEntry hre rfl⟩

/-! ## C8: check_charge_status is read-only -/

/-- C8: `check_charge_status` never mutates the registry, and on a found
charge with a parseable provider response it returns exactly the composite
of the stored entry (sms_sent, phone_number, amount) and the fresh query
(payment_status, created_at, paid_at). -/
theorem check_charge_status_read_only (cid : String) (reg : Registry) :
    (∀ (apiKey : Option String) (resp : HttpResult ChargeQueryBody),
      (check_charge_status cid apiKey resp reg).2 = reg) ∧
    (∀ (r : SmsRequest) (key ps ca : String) (q : ChargeQueryBody),
      lookupReg reg cid = some r → q.status = some ps → q.created_at = some ca →
      check_charge_status cid (some key) (.success q) reg =
        (.ok { charge_id := cid
               payment_status := ps
               sms_sent := r.sent
               phone_number := r.phone_number
               amount := r.amount
               created_at := ca
               paid_at := q.paid_at },
         reg)) := by
  constructor
  · intro apiKey resp
    simp only [check_charge_status]
    repeat' split
    all_goals rfl
  · intro r key ps ca q hlk hs hc
    simp [check_charge_status, hlk, hs, hc]

/-- C8 witness: the read-only composite at the concrete registry holding
the pending ch_1 entry and an unpaid provider query. -/
theorem check_charge_status_read_only_witness :
    (check_charge_status "ch_1" (some "key") (.success unpaidBody)
      regAfterCreate).2 = regAfterCreate ∧
    check_charge_status "ch_1" (some "key") (.success unpaidBody)
        regAfterCreate =
      (.ok { charge_id := "ch_1"
             payment_status := "processing"
             sms_sent := false
             phone_number := "+15551234567"
             amount := 1/10
             created_at := "t0"
             paid_at := none },
       regAfterCreate) := by
  have h := check_charge_status_read_only "ch_1" regAfterCreate
  exact ⟨h.1 (some "key") (.success unpaidBody),
    h.2 createdEntry "key" "processing" "t0" unpaidBody rfl rfl rfl⟩

/-! ## C10: deep link and hosted checkout fields -/

theorem fulfill_preserves_stored_fields (reg : Registry) (cid : String)
    (r r2 : SmsRequest) (apiKey : Option String)
    (resp : HttpResult ChargeQueryBody) (cfg : TwilioConfig)
    (send : Except String String)
    (hlk : lookupReg reg cid = some r)
    (h : lookupReg (pay_and_send_sms cid apiKey resp cfg send reg).2.1 cid
      = some r2) :
    r2.hosted_checkout_url = r.hosted_checkout_url ∧
    r2.lightning_invoice = r.lightning_invoice := by
  simp only [pay_and_send_sms, hlk] at h
  repeat' split at h
  all_goals first
    | (rw [hlk] at h
       injection h with h3
       rw [← h3]
       exact ⟨rfl, rfl⟩)
    | (rcases lookup_setReg_cases _ _ _ _ _ h with h2 | h2
       · rw [hlk] at h2
         injection h2 with h3
         rw [← h3]
         exact ⟨rfl, rfl⟩
       · subst h2
         exact ⟨rfl, rfl⟩)

/-- C10: for every registered charge, `get_sms_qr_with_link` returns a
deep link equal to the literal prefix followed by the stored invoice
percent-encoded with nothing held safe, and the stored hosted checkout
URL; and the single fulfillment mutation path preserves both stored fields,
so they are the values recorded at charge creation. -/
theorem qr_with_link_fields (reg : Registry) (cid : String) (r : SmsRequest)
    (hlk : lookupReg reg cid = some r) :
    get_sms_qr_with_link cid reg =
      .ok { deep_link := "lightning:" ++ pyQuote r.lightning_invoice
            hosted_checkout_url := r.hosted_checkout_url
            instructions := "Scan QR separately, or tap deep_link to open a wallet." } ∧
    (∀ (apiKey : Option String) (resp : HttpResult ChargeQueryBody)
       (cfg : TwilioConfig) (send : Except String String) (r2 : SmsRequest),
      lookupReg (pay_and_send_sms cid apiKey resp cfg send reg).2.1 cid = some r2 →
      r2.hosted_checkout_url = r.hosted_checkout_url ∧
      r2.lightning_invoice = r.lightning_invoice) := by
  constructor
  · simp [get_sms_qr_with_link, generate_lightning_deep_link, hlk]
  · intro apiKey resp cfg send r2 h
    exact fulfill_preserves_stored_fields reg cid r r2 apiKey resp cfg send hlk h

/-- C10 witness: the deep link and hosted checkout URL of the concrete
ch_1 entry, and preservation of the stored URL across the concrete
fulfillment. -/
theorem qr_with_link_fields_witness :
    get_sms_qr_with_link "ch_1" regAfterCreate =
      .ok { deep_link := "lightning:lntb1xyz"
            hosted_checkout_url := some "https://checkout.opennode.com/ch_1"
            instructions := "Scan QR separately, or tap deep_link to open a wallet." } ∧
    deliveredEntry.hosted_checkout_url = createdEntry.hosted_checkout_url ∧
    deliveredEntry.lightning_invoice = createdEntry.lightning_invoice := by
  have h := qr_with_link_fields regAfterCreate "ch_1" createdEntry rfl
  have h2 := h.2 (some "key") (.success paidBody) cfgSample (.ok "SM123")
    deliveredEntry rfl
  exact ⟨h.1, h2.1, h2.2⟩

end LightMCP
